import Mathlib

/-!
Verification of the Sindri cloud-prover adapter (`src/prover.rs`).

The development shallowly embeds the adapter's translation layer:

* the backend/vendor-neutral status vocabularies and the mapping between
  them (`SindriTaskStatus`, `TaskStatus`, `statusFrom`);
* the base64 re-encoding of verification keys (`reformat_vk`), on top of an
  executable model of the base64 codec in its two configurations
  (URL-safe unpadded and standard padded);
* the three adapter operations `get_vks`, `prove` and `query_task`.

The HTTP transport is modelled by passing each operation the outcome of its
backend call (`Except String _`): the adapter's behaviour depends only on
that outcome.  For `get_vks`, which performs one call per requested circuit
kind, the transport is a function from circuit kind to outcome and the
model additionally counts the calls issued.  Rust `f64` timestamps are
modelled as `Int`; the claims only concern the zero sentinel and
presence/absence of timestamps.
-/

/-- JSON values, modelling `serde_json::Value`.  Numbers are modelled as
integers: none of the verified properties depends on non-integral numbers. -/
inductive Json where
  | null : Json
  | bool : Bool → Json
  | num : Int → Json
  | str : String → Json
  | arr : List Json → Json
  | obj : List (String × Json) → Json

mutual

/-- Rendering of a JSON value, modelling `serde_json::to_string` (string
escaping is not modelled; no verified property inspects rendered strings). -/
def Json.render : Json → String
  | .null => "null"
  | .bool true => "true"
  | .bool false => "false"
  | .num n => toString n
  | .str s => "\"" ++ s ++ "\""
  | .arr xs => "[" ++ Json.renderSep xs ++ "]"
  | .obj fs => "\x7b" ++ Json.renderFields fs ++ "\x7d"

/-- Comma-separated rendering of a JSON array's elements. -/
def Json.renderSep : List Json → String
  | [] => ""
  | [x] => x.render
  | x :: xs => x.render ++ "," ++ Json.renderSep xs

/-- Comma-separated rendering of a JSON object's fields. -/
def Json.renderFields : List (String × Json) → String
  | [] => ""
  | [(k, v)] => "\"" ++ k ++ "\":" ++ v.render
  | (k, v) :: fs => "\"" ++ k ++ "\":" ++ v.render ++ "," ++ Json.renderFields fs
end

/-- `serde_json::to_string` on an `Option<Value>`: `None` renders as
`null` and the call never fails. -/
def renderOptJson : Option Json → String
  | none => "null"
  | some j => j.render

/-! ### The base64 codec

Models the `base64` crate as used by `reformat_vk`: `URL_SAFE_NO_PAD`
decoding and `STANDARD` (padded) encoding, per RFC 4648.  Bytes are `Nat`s
below 256. -/

/-- The standard base64 alphabet (RFC 4648 §4). -/
def B64_STD : List Char :=
  ['A','B','C','D','E','F','G','H','I','J','K','L','M','N','O','P',
   'Q','R','S','T','U','V','W','X','Y','Z',
   'a','b','c','d','e','f','g','h','i','j','k','l','m','n','o','p',
   'q','r','s','t','u','v','w','x','y','z',
   '0','1','2','3','4','5','6','7','8','9','+','/']

/-- The URL-safe base64 alphabet (RFC 4648 §5). -/
def B64_URL : List Char :=
  ['A','B','C','D','E','F','G','H','I','J','K','L','M','N','O','P',
   'Q','R','S','T','U','V','W','X','Y','Z',
   'a','b','c','d','e','f','g','h','i','j','k','l','m','n','o','p',
   'q','r','s','t','u','v','w','x','y','z',
   '0','1','2','3','4','5','6','7','8','9','-','_']

/-- Character for a six-bit group. -/
def sextetChar (alpha : List Char) (n : Nat) : Char := alpha.getD n 'A'

/-- Six-bit value of an alphabet character (`none` for a character outside
the alphabet). -/
def sextetVal (alpha : List Char) (c : Char) : Option Nat :=
  alpha.findIdx? (fun a => a == c)

/-- Bytes to six-bit groups (RFC 4648 §4: big-endian bit stream, final
partial group zero-padded on the right). -/
def bytesToSextets : List Nat → List Nat
  | [] => []
  | [b1] => [b1 / 4, b1 % 4 * 16]
  | [b1, b2] => [b1 / 4, b1 % 4 * 16 + b2 / 16, b2 % 16 * 4]
  | b1 :: b2 :: b3 :: rest =>
    b1 / 4 :: (b1 % 4 * 16 + b2 / 16) :: (b2 % 16 * 4 + b3 / 64) :: b3 % 64 ::
      bytesToSextets rest

/-- Six-bit groups back to bytes.  A trailing group of one sextet is an
invalid length; trailing groups of two or three sextets must have their
padding bits zero (the crate's `InvalidLastSymbol` canonicality check). -/
def sextetsToBytes : List Nat → Option (List Nat)
  | [] => some []
  | [_] => none
  | [s1, s2] =>
    if s2 % 16 = 0 then some [s1 * 4 + s2 / 16] else none
  | [s1, s2, s3] =>
    if s3 % 4 = 0 then some [s1 * 4 + s2 / 16, s2 % 16 * 16 + s3 / 4] else none
  | s1 :: s2 :: s3 :: s4 :: rest =>
    match sextetsToBytes rest with
    | some tail =>
      some ((s1 * 4 + s2 / 16) :: (s2 % 16 * 16 + s3 / 4) :: (s3 % 4 * 64 + s4) :: tail)
    | none => none

/-- Characters to six-bit values; fails on any character outside the
alphabet (the crate's `InvalidByte` error). -/
def charsToSextets (alpha : List Char) : List Char → Option (List Nat)
  | [] => some []
  | c :: rest =>
    match sextetVal alpha c with
    | some s =>
      match charsToSextets alpha rest with
      | some tail => some (s :: tail)
      | none => none
    | none => none

/-- Unpadded base64 encoding over the given alphabet. -/
def encodeB64NoPad (alpha : List Char) (b : List Nat) : List Char :=
  (bytesToSextets b).map (sextetChar alpha)

/-- Padded base64 encoding over the given alphabet: the unpadded encoding
followed by `=` up to a multiple of four characters. -/
def encodeB64Pad (alpha : List Char) (b : List Nat) : List Char :=
  encodeB64NoPad alpha b ++ List.replicate ((3 - b.length % 3) % 3) '='

/-- Unpadded base64 decoding over the given alphabet. -/
def decodeB64NoPad (alpha : List Char) (s : List Char) : Option (List Nat) :=
  match charsToSextets alpha s with
  | some sx => sextetsToBytes sx
  | none => none

/-- Drop trailing `=` padding characters. -/
def stripPad (s : List Char) : List Char :=
  (s.reverse.dropWhile (fun c => c == '=')).reverse

/-- Padded base64 decoding over the given alphabet: the length must be a
multiple of four; trailing `=` is stripped and the rest decoded. -/
def decodeB64Pad (alpha : List Char) (s : List Char) : Option (List Nat) :=
  if s.length % 4 = 0 then decodeB64NoPad alpha (stripPad s) else none

/-- `reformat_vk` (`prover.rs:127`): decode the key as URL-safe unpadded
base64, re-encode it as standard padded base64.  A decode failure is the
crate's `DecodeError`, stringified by `anyhow`. -/
def reformat_vk (vk_old : String) : Except String String :=
  match decodeB64NoPad B64_URL vk_old.toList with
  | none => Except.error "base64 decode error"
  | some vk => Except.ok (encodeB64Pad B64_STD vk).asString

/-! ### The adapter's data model

The vendor-neutral contract types (`CircuitType`, `TaskStatus`, the
request/response records) come from `scroll_proving_sdk`; their shapes are
modelled from the spec's data model (§3) and the field uses visible in
`prover.rs`.  Rust `input: String` fields hold serialized JSON and are
modelled as the parsed `Json` value, with `serde_json::from_str`/`to_string`
acting on that tree. -/

/-- Circuit kinds of the vendor-neutral contract (spec §3 `CircuitTarget`). -/
inductive CircuitType where
  | Undefined : CircuitType
  | Chunk : CircuitType
  | Batch : CircuitType
  | Bundle : CircuitType
deriving DecidableEq

/-- Vendor-neutral task statuses (spec §3 `BackendTaskStatus` mapping
codomain). -/
inductive TaskStatus where
  | Queued : TaskStatus
  | Proving : TaskStatus
  | Success : TaskStatus
  | Failed : TaskStatus
deriving DecidableEq

/-- `SindriTaskStatus` (`prover.rs:98`): the backend's status vocabulary. -/
inductive SindriTaskStatus where
  | Queued : SindriTaskStatus
  | Proving : SindriTaskStatus
  | Success : SindriTaskStatus
  | Failed : SindriTaskStatus
deriving DecidableEq

/-- Deserialization of the backend's status strings, per the
`#[serde(rename = ...)]` attributes on `SindriTaskStatus`
(`prover.rs:100-107`). -/
def parseSindriStatus (s : String) : Option SindriTaskStatus :=
  if s = "Queued" then some SindriTaskStatus.Queued
  else if s = "In Progress" then some SindriTaskStatus.Proving
  else if s = "Ready" then some SindriTaskStatus.Success
  else if s = "Failed" then some SindriTaskStatus.Failed
  else none

/-- `impl From<SindriTaskStatus> for TaskStatus` (`prover.rs:110`). -/
def statusFrom : SindriTaskStatus → TaskStatus
  | SindriTaskStatus.Queued => TaskStatus.Queued
  | SindriTaskStatus.Proving => TaskStatus.Proving
  | SindriTaskStatus.Success => TaskStatus.Success
  | SindriTaskStatus.Failed => TaskStatus.Failed

/-- `VerificationKey` (`prover.rs:82`). -/
structure VerificationKey where
  verification_key : String
deriving DecidableEq

/-- Timestamps as derived by `proving_timestamps_from_response`:
creation time and optional start/finish times.  Rust `f64` seconds are
modelled as `Int`. -/
abbrev Timestamps := Int × Option Int × Option Int

/-- `SindriProofInfoResponse` (`prover.rs:87`). -/
structure SindriProofInfoResponse where
  compute_time_sec : Option Int
  date_created : String
  error : Option String
  proof_id : String
  proof : Option Json
  queue_time_sec : Option Int
  status : SindriTaskStatus
  verification_key : Option VerificationKey

/-- `SindriCircuitInfoResponse` (`prover.rs:158`, local to `get_vks`). -/
structure SindriCircuitInfoResponse where
  verification_key : VerificationKey
deriving DecidableEq

/-- `GetVkRequest` of the vendor-neutral contract, as used by `get_vks`. -/
structure GetVkRequest where
  circuit_types : List CircuitType
  circuit_version : String

/-- `GetVkResponse` of the vendor-neutral contract. -/
structure GetVkResponse where
  vks : List String
  error : Option String
deriving DecidableEq

/-- `ProveRequest` of the vendor-neutral contract, as used by `prove`. -/
structure ProveRequest where
  circuit_type : CircuitType
  circuit_version : String
  hard_fork_name : String
  input : Json

/-- `ProveResponse` of the vendor-neutral contract. -/
structure ProveResponse where
  task_id : String
  circuit_type : CircuitType
  circuit_version : String
  hard_fork_name : String
  status : TaskStatus
  created_at : Int
  started_at : Option Int
  finished_at : Option Int
  compute_time_sec : Option Int
  input : Option Json
  proof : Option String
  vk : Option String
  error : Option String

/-- `QueryTaskRequest` of the vendor-neutral contract. -/
structure QueryTaskRequest where
  task_id : String

/-- `QueryTaskResponse` of the vendor-neutral contract. -/
structure QueryTaskResponse where
  task_id : String
  circuit_type : CircuitType
  circuit_version : String
  hard_fork_name : String
  status : TaskStatus
  created_at : Int
  started_at : Option Int
  finished_at : Option Int
  compute_time_sec : Option Int
  input : Option Json
  proof : Option String
  vk : Option String
  error : Option String

/-- `SindriProveRequest` (`prover.rs:208`, local to `prove`); the
`proof_input: String` field holds serialized JSON, modelled as the tree. -/
structure SindriProveRequest where
  proof_input : Json
  perform_verify : Bool

/-- `THIS_CIRCUIT_VERSION` (`prover.rs:338`). -/
def THIS_CIRCUIT_VERSION : String := "v0.13.1"

/-! ### The adapter's operations -/

/-- Modelled from the spec: `prover_darwin_v2::BundleProvingTask` is an
external crate type not among the sources; the spec (§4.5 step 2 and §8)
describes the caller-supplied Bundle input as an envelope whose
`batch_proofs` field holds the proof array that the backend expects
directly.  Deserializing the envelope and reserializing its `batch_proofs`
field is modelled as extracting that field's array. -/
def bundleBatchProofs : Json → Except String Json
  | Json.obj fields =>
    match fields.lookup "batch_proofs" with
    | some (Json.arr xs) => Except.ok (Json.arr xs)
    | some _ => Except.error "invalid type for field batch_proofs"
    | none => Except.error "missing field batch_proofs"
  | _ => Except.error "invalid type: expected a map"

/-- `reprocess_prove_input` (`prover.rs:327`): for a Bundle circuit, strip
the `batch_proofs` envelope; otherwise pass the input through unchanged. -/
def reprocess_prove_input (req : ProveRequest) : Except String Json :=
  if req.circuit_type = CircuitType.Bundle then
    bundleBatchProofs req.input
  else
    Except.ok req.input

/-- The backend request body built by `prove` (`prover.rs:213`): the
reshaped input together with `perform_verify: true`. -/
def sindri_prove_request (req : ProveRequest) : Except String SindriProveRequest :=
  (reprocess_prove_input req).map (fun input => ⟨input, true⟩)

/-- `build_prove_error_response` (`prover.rs:308`). -/
def build_prove_error_response (req : ProveRequest) (error_msg : String) :
    ProveResponse where
  task_id := ""
  circuit_type := req.circuit_type
  circuit_version := req.circuit_version
  hard_fork_name := req.hard_fork_name
  status := TaskStatus.Failed
  created_at := 0
  started_at := none
  finished_at := none
  compute_time_sec := none
  input := some req.input
  proof := none
  vk := none
  error := some error_msg

/-- `prove` (`prover.rs:197`).  `ts` models `proving_timestamps_from_response`
(in `crate::utils`, not among the sources; spec §4.5 step 4 only says the
three timestamps are derived from the backend's reported fields, so the
derivation is kept abstract).  `transport` is the outcome of the
`post_with_token` call. -/
def prove (ts : SindriProofInfoResponse → Timestamps) (req : ProveRequest)
    (transport : Except String SindriProofInfoResponse) : ProveResponse :=
  if req.circuit_version ≠ THIS_CIRCUIT_VERSION then
    build_prove_error_response req "circuit version mismatch"
  else
    match reprocess_prove_input req with
    | Except.error e => build_prove_error_response req e
    | Except.ok _ =>
      match transport with
      | Except.ok resp =>
        let t := ts resp
        { task_id := resp.proof_id
          circuit_type := req.circuit_type
          circuit_version := req.circuit_version
          hard_fork_name := req.hard_fork_name
          status := statusFrom resp.status
          created_at := t.1
          started_at := t.2.1
          finished_at := t.2.2
          compute_time_sec := resp.compute_time_sec
          input := some req.input
          proof := some (renderOptJson resp.proof)
          vk := resp.verification_key.map (fun vk => vk.verification_key)
          error := resp.error }
      | Except.error e =>
        build_prove_error_response req ("Failed to request proof: " ++ e)

/-- The loop of `get_vks` over the requested circuit kinds
(`prover.rs:162-192`): one backend call per kind, re-encode the returned
key, append it if not already present, and stop at the first failure.
Returns the response together with the number of backend calls issued. -/
def getVksLoop (transport : CircuitType → Except String SindriCircuitInfoResponse) :
    List CircuitType → List String → GetVkResponse × Nat
  | [], vks => ({ vks := vks, error := none }, 0)
  | ct :: rest, vks =>
    match transport ct with
    | Except.error e => ({ vks := vks, error := some e }, 1)
    | Except.ok resp =>
      match reformat_vk resp.verification_key.verification_key with
      | Except.error e => ({ vks := vks, error := some e }, 1)
      | Except.ok vk =>
        let vks2 := if vks.contains vk then vks else vks ++ [vk]
        let r := getVksLoop transport rest vks2
        (r.1, r.2 + 1)

/-- `get_vks` (`prover.rs:149`).  `transport` gives the outcome of the
per-kind `get_with_token` call; the second component counts the backend
calls issued. -/
def get_vks (req : GetVkRequest)
    (transport : CircuitType → Except String SindriCircuitInfoResponse) :
    GetVkResponse × Nat :=
  if req.circuit_version ≠ THIS_CIRCUIT_VERSION then
    ({ vks := [], error := some "circuit version mismatch" }, 0)
  else
    getVksLoop transport req.circuit_types []

/-- The per-kind outcome of `get_vks`'s loop body: the transport call
followed by the re-encoding of the returned key. -/
def vkResult (transport : CircuitType → Except String SindriCircuitInfoResponse)
    (ct : CircuitType) : Except String String :=
  match transport ct with
  | Except.error e => Except.error e
  | Except.ok resp => reformat_vk resp.verification_key.verification_key

/-- Insert-if-absent accumulation of keys (the `if !vks.contains(&vk)`
push of `get_vks`'s loop), preserving order of first appearance. -/
def dedupAppend (acc : List String) (new : List String) : List String :=
  new.foldl (fun a v => if a.contains v then a else a ++ [v]) acc

/-- `query_task` (`prover.rs:250`).  `ts` and `transport` as in `prove`. -/
def query_task (ts : SindriProofInfoResponse → Timestamps) (req : QueryTaskRequest)
    (transport : Except String SindriProofInfoResponse) : QueryTaskResponse :=
  match transport with
  | Except.ok resp =>
    let t := ts resp
    { task_id := resp.proof_id
      circuit_type := CircuitType.Undefined
      circuit_version := ""
      hard_fork_name := ""
      status := statusFrom resp.status
      created_at := t.1
      started_at := t.2.1
      finished_at := t.2.2
      compute_time_sec := resp.compute_time_sec
      input := none
      proof := some (renderOptJson resp.proof)
      vk := resp.verification_key.map (fun vk => vk.verification_key)
      error := resp.error }
  | Except.error e =>
    { task_id := req.task_id
      circuit_type := CircuitType.Undefined
      circuit_version := ""
      hard_fork_name := ""
      status := TaskStatus.Queued
      created_at := 0
      started_at := none
      finished_at := none
      compute_time_sec := none
      input := none
      proof := none
      vk := none
      error := some ("Failed to query proof: " ++ e) }

/-- The status acceptance check of `request_with_token` (`prover.rs:457`):
only status codes in the inclusive range 200–202 are accepted. -/
def statusOk (status : Nat) : Bool :=
  200 ≤ status && status ≤ 202

/-- The call outcome as a function of the HTTP status code and of decoding
the body (`prover.rs:455-476`): a status outside 200–202 bails out before
the body is read. -/
def httpOutcome (status : Nat) (decoded : Except String SindriProofInfoResponse) :
    Except String SindriProofInfoResponse :=
  if statusOk status then decoded
  else Except.error ("status not ok: " ++ toString status)

/-- `MethodClass` (`prover.rs:121`). -/
inductive MethodClass where
  | Circuit : CircuitType → MethodClass
  | Proof : String → MethodClass

/-- The path that `build_url` (`prover.rs:371`) appends to the configured
API root.  The `Undefined` circuit kind hits `unreachable!` — a panic,
modelled as `none`; every other outcome is a well-formed relative path
(`Url::join` of relative segments onto a base ending in `/` concatenates). -/
def build_url_path (method_class : MethodClass) (method : String) : Option String :=
  match method_class with
  | MethodClass.Circuit circuit_type =>
    match circuit_type with
    | CircuitType.Chunk =>
      some ("circuit/scroll-tech/chunk_prover:" ++ THIS_CIRCUIT_VERSION ++ "/" ++ method)
    | CircuitType.Batch =>
      some ("circuit/scroll-tech/batch_prover:" ++ THIS_CIRCUIT_VERSION ++ "/" ++ method)
    | CircuitType.Bundle =>
      some ("circuit/scroll-tech/bundle_prover:" ++ THIS_CIRCUIT_VERSION ++ "/" ++ method)
    | CircuitType.Undefined => none
  | MethodClass.Proof id => some ("proof/" ++ id ++ "/" ++ method)

/-! ### Helper lemmas -/

/-- Appending to a non-empty string literal never yields the empty string. -/
theorem append_ne_empty_of_ne_empty (a b : String) (h : a ≠ "") : a ++ b ≠ "" := by
  intro hc
  apply h
  have h2 := congrArg String.data hc
  simp only [String.data_append] at h2
  rcases List.append_eq_nil.mp h2 with ⟨h1, _⟩
  exact String.ext h1

/-- Every error message produced by `bundleBatchProofs` is non-empty. -/
theorem bundleBatchProofs_error_ne_empty {j : Json} {e : String}
    (h : bundleBatchProofs j = Except.error e) : e ≠ "" := by
  unfold bundleBatchProofs at h
  split at h
  · split at h
    · simp at h
    · simp at h; subst h; decide
    · simp at h; subst h; decide
  · simp at h; subst h; decide

/-- Every error message produced by `reprocess_prove_input` is non-empty. -/
theorem reprocess_error_ne_empty {req : ProveRequest} {e : String}
    (h : reprocess_prove_input req = Except.error e) : e ≠ "" := by
  unfold reprocess_prove_input at h
  split at h
  · exact bundleBatchProofs_error_ne_empty h
  · simp at h

/-- Decoding inverts encoding on each six-bit value, standard alphabet. -/
theorem sextetVal_sextetChar_std :
    ∀ n : Fin 64, sextetVal B64_STD (sextetChar B64_STD n.val) = some n.val := by
  decide

/-- Decoding inverts encoding on each six-bit value, URL-safe alphabet. -/
theorem sextetVal_sextetChar_url :
    ∀ n : Fin 64, sextetVal B64_URL (sextetChar B64_URL n.val) = some n.val := by
  decide

/-- No standard-alphabet character is the padding character. -/
theorem sextetChar_std_ne_pad : ∀ n : Fin 64, sextetChar B64_STD n.val ≠ '=' := by
  decide

/-- All six-bit groups produced from bytes are below 64. -/
theorem bytesToSextets_lt :
    ∀ b : List Nat, (∀ x ∈ b, x < 256) → ∀ s ∈ bytesToSextets b, s < 64 := by
  intro b
  induction b using bytesToSextets.induct with
  | case1 =>
    intro _ s hs
    simp [bytesToSextets] at hs
  | case2 b1 =>
    intro h s hs
    have hb1 := h b1 (by simp)
    simp [bytesToSextets] at hs
    rcases hs with h | h <;> omega
  | case3 b1 b2 =>
    intro h s hs
    have hb1 := h b1 (by simp)
    have hb2 := h b2 (by simp)
    simp [bytesToSextets] at hs
    rcases hs with h | h | h <;> omega
  | case4 b1 b2 b3 rest ih =>
    intro h s hs
    have hb1 := h b1 (by simp)
    have hb2 := h b2 (by simp)
    have hb3 := h b3 (by simp)
    simp [bytesToSextets] at hs
    rcases hs with h1 | h1 | h1 | h1 | h1
    · omega
    · omega
    · omega
    · omega
    · exact ih (fun x hx => h x (by simp [hx])) s h1

/-- Mapping six-bit values to characters and back is the identity, for an
alphabet on which `sextetVal` inverts `sextetChar`. -/
theorem charsToSextets_map (alpha : List Char)
    (key : ∀ n, n < 64 → sextetVal alpha (sextetChar alpha n) = some n) :
    ∀ sx : List Nat, (∀ s ∈ sx, s < 64) →
      charsToSextets alpha (sx.map (sextetChar alpha)) = some sx := by
  intro sx
  induction sx with
  | nil => intro _; rfl
  | cons s rest ih =>
    intro h
    have hs := h s (by simp)
    simp [charsToSextets, key s hs, ih (fun x hx => h x (by simp [hx]))]

/-- Regrouping six-bit values into bytes inverts the grouping of bytes into
six-bit values. -/
theorem sextetsToBytes_bytesToSextets :
    ∀ b : List Nat, (∀ x ∈ b, x < 256) →
      sextetsToBytes (bytesToSextets b) = some b := by
  intro b
  induction b using bytesToSextets.induct with
  | case1 => intro _; rfl
  | case2 b1 =>
    intro h
    have hb1 := h b1 (by simp)
    simp only [bytesToSextets, sextetsToBytes]
    rw [if_pos (by omega)]
    simp only [Option.some.injEq, List.cons.injEq, and_true]
    omega
  | case3 b1 b2 =>
    intro h
    have hb1 := h b1 (by simp)
    have hb2 := h b2 (by simp)
    simp only [bytesToSextets, sextetsToBytes]
    rw [if_pos (by omega)]
    simp only [Option.some.injEq, List.cons.injEq, and_true]
    omega
  | case4 b1 b2 b3 rest ih =>
    intro h
    have hb1 := h b1 (by simp)
    have hb2 := h b2 (by simp)
    have hb3 := h b3 (by simp)
    have ihr := ih (fun x hx => h x (by simp [hx]))
    simp only [bytesToSextets, sextetsToBytes, ihr, Option.some.injEq, List.cons.injEq,
      and_true]
    omega

/-- Unpadded decoding inverts unpadded encoding, for an alphabet on which
`sextetVal` inverts `sextetChar`. -/
theorem decode_encode_noPad (alpha : List Char)
    (key : ∀ n, n < 64 → sextetVal alpha (sextetChar alpha n) = some n)
    (b : List Nat) (h : ∀ x ∈ b, x < 256) :
    decodeB64NoPad alpha (encodeB64NoPad alpha b) = some b := by
  unfold decodeB64NoPad encodeB64NoPad
  rw [charsToSextets_map alpha key _ (bytesToSextets_lt b h)]
  exact sextetsToBytes_bytesToSextets b h

/-- Dropping `=` characters from a block of `=` continues behind it. -/
theorem dropWhile_eq_replicate_append (k : Nat) (l : List Char) :
    List.dropWhile (fun c => c == '=') (List.replicate k '=' ++ l) =
      List.dropWhile (fun c => c == '=') l := by
  induction k with
  | zero => rfl
  | succ n ih => simp [List.replicate_succ, List.dropWhile, ih]

/-- Stripping padding removes exactly the appended `=` characters when the
encoded body contains none. -/
theorem stripPad_append_replicate (x : List Char) (k : Nat)
    (hx : ∀ c ∈ x, (c == '=') = false) :
    stripPad (x ++ List.replicate k '=') = x := by
  unfold stripPad
  rw [List.reverse_append, List.reverse_replicate, dropWhile_eq_replicate_append]
  cases hxr : x.reverse with
  | nil =>
    have : x = [] := by simpa using congrArg List.reverse hxr
    simp [this]
  | cons c cs =>
    have hc : (c == '=') = false := by
      apply hx
      rw [← List.mem_reverse, hxr]
      simp
    rw [List.dropWhile_cons_of_neg (by simp_all), ← hxr, List.reverse_reverse]

/-- The padded encoding's length is a multiple of four. -/
theorem bytesToSextets_length_pad :
    ∀ b : List Nat, ((bytesToSextets b).length + (3 - b.length % 3) % 3) % 4 = 0 := by
  intro b
  induction b using bytesToSextets.induct with
  | case1 => rfl
  | case2 b1 => simp [bytesToSextets]
  | case3 b1 b2 => simp [bytesToSextets]
  | case4 b1 b2 b3 rest ih =>
    simp only [bytesToSextets, List.length_cons] at ih ⊢
    omega

/-- The padded encoding's length is a multiple of four. -/
theorem encodeB64Pad_length_mod (alpha : List Char) (b : List Nat) :
    (encodeB64Pad alpha b).length % 4 = 0 := by
  unfold encodeB64Pad encodeB64NoPad
  rw [List.length_append, List.length_map, List.length_replicate]
  exact bytesToSextets_length_pad b

/-- A standard-alphabet encoding contains no padding character. -/
theorem encodeB64NoPad_std_ne_pad (b : List Nat) (h : ∀ x ∈ b, x < 256) :
    ∀ c ∈ encodeB64NoPad B64_STD b, (c == '=') = false := by
  intro c hc
  unfold encodeB64NoPad at hc
  rcases List.mem_map.mp hc with ⟨s, hs, rfl⟩
  have h64 := bytesToSextets_lt b h s hs
  have hne := sextetChar_std_ne_pad ⟨s, h64⟩
  simpa using hne

/-- Standard padded decoding inverts standard padded encoding. -/
theorem decodePad_encodePad_std (b : List Nat) (h : ∀ x ∈ b, x < 256) :
    decodeB64Pad B64_STD (encodeB64Pad B64_STD b) = some b := by
  unfold decodeB64Pad
  rw [if_pos (encodeB64Pad_length_mod _ b)]
  have hs : stripPad (encodeB64Pad B64_STD b) = encodeB64NoPad B64_STD b := by
    unfold encodeB64Pad
    exact stripPad_append_replicate _ _ (encodeB64NoPad_std_ne_pad b h)
  rw [hs]
  exact decode_encode_noPad B64_STD
    (fun n hn => sextetVal_sextetChar_std ⟨n, hn⟩) b h

/-- One step of `get_vks`'s loop when the kind fails (transport or
re-encoding failure). -/
theorem getVksLoop_cons_err (transport : CircuitType → Except String SindriCircuitInfoResponse)
    (ct : CircuitType) (rest : List CircuitType) (acc : List String) (e : String)
    (h : vkResult transport ct = Except.error e) :
    getVksLoop transport (ct :: rest) acc = ({ vks := acc, error := some e }, 1) := by
  unfold vkResult at h
  cases htr : transport ct with
  | error e' =>
    rw [htr] at h
    have h2 : (Except.error e' : Except String String) = Except.error e := h
    injection h2 with h2
    subst h2
    simp [getVksLoop, htr]
  | ok resp =>
    rw [htr] at h
    have h2 : reformat_vk resp.verification_key.verification_key = Except.error e := h
    simp [getVksLoop, htr, h2]

/-- One step of `get_vks`'s loop when the kind succeeds with re-encoded
key `vk`. -/
theorem getVksLoop_cons_ok (transport : CircuitType → Except String SindriCircuitInfoResponse)
    (ct : CircuitType) (rest : List CircuitType) (acc : List String) (vk : String)
    (h : vkResult transport ct = Except.ok vk) :
    getVksLoop transport (ct :: rest) acc =
      ((getVksLoop transport rest (if acc.contains vk then acc else acc ++ [vk])).1,
       (getVksLoop transport rest (if acc.contains vk then acc else acc ++ [vk])).2 + 1) := by
  unfold vkResult at h
  cases htr : transport ct with
  | error e' =>
    rw [htr] at h
    have h2 : (Except.error e' : Except String String) = Except.ok vk := h
    exact absurd h2 (by simp)
  | ok resp =>
    rw [htr] at h
    have h2 : reformat_vk resp.verification_key.verification_key = Except.ok vk := h
    simp [getVksLoop, htr, h2]

/-- `get_vks`'s loop over kinds that all succeed followed by a failing
kind: it accumulates the de-duplicated keys of the successful kinds in
order, stops at the failure with its error, and issues one call per kind
processed. -/
theorem getVksLoop_first_failure
    (transport : CircuitType → Except String SindriCircuitInfoResponse) :
    ∀ (pre : List CircuitType) (bad : CircuitType) (post : List CircuitType)
      (vs : List String) (e : String) (acc : List String),
      pre.map (fun k => vkResult transport k) = vs.map Except.ok →
      vkResult transport bad = Except.error e →
      getVksLoop transport (pre ++ bad :: post) acc =
        ({ vks := dedupAppend acc vs, error := some e }, pre.length + 1) := by
  intro pre
  induction pre with
  | nil =>
    intro bad post vs e acc hvs hbad
    have hnil : vs = [] := by
      cases vs with
      | nil => rfl
      | cons v vs' => simp at hvs
    subst hnil
    rw [List.nil_append, getVksLoop_cons_err transport bad post acc e hbad]
    rfl
  | cons k pre ih =>
    intro bad post vs e acc hvs hbad
    cases vs with
    | nil => simp at hvs
    | cons v vs' =>
      simp only [List.map_cons, List.cons.injEq] at hvs
      obtain ⟨hk, hrest⟩ := hvs
      rw [List.cons_append, getVksLoop_cons_ok transport k _ acc v hk,
        ih bad post vs' e _ hrest hbad]
      rfl

/-- Every key in the output of `get_vks`'s loop is either already in the
accumulator or is the once-re-encoded key of some requested kind. -/
theorem getVksLoop_mem (transport : CircuitType → Except String SindriCircuitInfoResponse) :
    ∀ (kinds : List CircuitType) (acc : List String) (vk : String),
      vk ∈ (getVksLoop transport kinds acc).1.vks →
      vk ∈ acc ∨ ∃ ct ∈ kinds, ∃ resp, transport ct = Except.ok resp ∧
        reformat_vk resp.verification_key.verification_key = Except.ok vk := by
  intro kinds
  induction kinds with
  | nil =>
    intro acc vk h
    simp only [getVksLoop] at h
    exact Or.inl h
  | cons ct rest ih =>
    intro acc vk h
    cases htr : transport ct with
    | error e =>
      simp only [getVksLoop, htr] at h
      exact Or.inl h
    | ok resp =>
      cases hrf : reformat_vk resp.verification_key.verification_key with
      | error e =>
        simp only [getVksLoop, htr, hrf] at h
        exact Or.inl h
      | ok vk' =>
        simp only [getVksLoop, htr, hrf] at h
        rcases ih (if acc.contains vk' then acc else acc ++ [vk']) vk h with
          hin | ⟨ct', hct', resp', h1, h2⟩
        · by_cases hc : acc.contains vk'
          · rw [if_pos hc] at hin
            exact Or.inl hin
          · rw [if_neg hc] at hin
            rcases List.mem_append.mp hin with hmem | hmem
            · exact Or.inl hmem
            · right
              refine ⟨ct, by simp, resp, htr, ?_⟩
              rw [List.mem_singleton.mp hmem]
              exact hrf
        · exact Or.inr ⟨ct', by simp [hct'], resp', h1, h2⟩

/-! ### Claim theorems -/

/-- C1 (amended): every verification key returned by `get_vks` has passed
through the re-encoding step exactly once — it is `reformat_vk` applied to
a key received from the backend; by contrast, `prove` and `query_task`
return the backend's key material unchanged, without any re-encoding. -/
theorem c1_vk_reencoding_amended :
    (∀ (transport : CircuitType → Except String SindriCircuitInfoResponse)
       (req : GetVkRequest) (vk : String), vk ∈ (get_vks req transport).1.vks →
       ∃ ct ∈ req.circuit_types, ∃ resp, transport ct = Except.ok resp ∧
         reformat_vk resp.verification_key.verification_key = Except.ok vk) ∧
    (∀ (ts : SindriProofInfoResponse → Timestamps) (req : ProveRequest)
       (resp : SindriProofInfoResponse) (i : Json),
       req.circuit_version = THIS_CIRCUIT_VERSION →
       reprocess_prove_input req = Except.ok i →
       (prove ts req (Except.ok resp)).vk =
         resp.verification_key.map (fun vk => vk.verification_key)) ∧
    (∀ (ts : SindriProofInfoResponse → Timestamps) (req : QueryTaskRequest)
       (resp : SindriProofInfoResponse),
       (query_task ts req (Except.ok resp)).vk =
         resp.verification_key.map (fun vk => vk.verification_key)) := by
  refine ⟨?_, ?_, ?_⟩
  · intro transport req vk h
    unfold get_vks at h
    by_cases hv : req.circuit_version ≠ THIS_CIRCUIT_VERSION
    · rw [if_pos hv] at h
      simp at h
    · rw [if_neg hv] at h
      rcases getVksLoop_mem transport req.circuit_types [] vk h with hin | hex
      · simp at hin
      · exact hex
  · intro ts req resp i hv hrp
    simp [prove, hv, hrp]
  · intro ts req resp
    rfl

/-- C1 witness: a concrete `get_vks` run whose returned key is the
re-encoding of the backend's key, and concrete `prove`/`query_task` runs
whose returned key is the backend's key unchanged. -/
theorem c1_witness :
    (∃ ct ∈ [CircuitType.Chunk], ∃ resp,
       (fun _ : CircuitType =>
         (Except.ok ⟨⟨"-w"⟩⟩ : Except String SindriCircuitInfoResponse)) ct =
           Except.ok resp ∧
       reformat_vk resp.verification_key.verification_key = Except.ok "+w==") ∧
    (prove (fun _ => ((0 : Int), none, none))
      ⟨CircuitType.Chunk, THIS_CIRCUIT_VERSION, "fork", Json.null⟩
      (Except.ok ⟨none, "", none, "id", none, none, SindriTaskStatus.Success,
        some ⟨"-w"⟩⟩)).vk = some "-w" ∧
    (query_task (fun _ => ((0 : Int), none, none)) ⟨"t"⟩
      (Except.ok ⟨none, "", none, "id", none, none, SindriTaskStatus.Success,
        some ⟨"-w"⟩⟩)).vk = some "-w" := by
  refine ⟨?_, ?_, ?_⟩
  · have h := c1_vk_reencoding_amended.1
      (fun _ : CircuitType =>
        (Except.ok ⟨⟨"-w"⟩⟩ : Except String SindriCircuitInfoResponse))
      ⟨[CircuitType.Chunk], THIS_CIRCUIT_VERSION⟩ "+w==" (by decide)
    simpa using h
  · exact c1_vk_reencoding_amended.2.1 (fun _ => ((0 : Int), none, none))
      ⟨CircuitType.Chunk, THIS_CIRCUIT_VERSION, "fork", Json.null⟩
      ⟨none, "", none, "id", none, none, SindriTaskStatus.Success, some ⟨"-w"⟩⟩
      Json.null rfl rfl
  · exact c1_vk_reencoding_amended.2.2 (fun _ => ((0 : Int), none, none)) ⟨"t"⟩
      ⟨none, "", none, "id", none, none, SindriTaskStatus.Success, some ⟨"-w"⟩⟩

/-- C1 counterexample: `query_task` returns a key value that has passed
through the re-encoding step zero times, not once: the response carries
the backend's URL-safe value "-w" unchanged, while one application of the
re-encoding step yields "+w==" ≠ "-w". -/
theorem c1_counterexample :
    (query_task (fun _ => ((0 : Int), none, none)) ⟨"t"⟩
      (Except.ok ⟨none, "", none, "id", none, none, SindriTaskStatus.Success,
        some ⟨"-w"⟩⟩)).vk = some "-w" ∧
    reformat_vk "-w" = Except.ok "+w==" ∧ ("-w" : String) ≠ "+w==" :=
  ⟨rfl, rfl, by decide⟩

/-- C4: `get_vks` processes the requested kinds in order and stops at the
first per-kind failure (transport or re-encoding), returning exactly the
de-duplicated keys accumulated from the kinds before the failure together
with the failure's error, having issued one backend call per kind
processed. -/
theorem c4_get_vks_stops_at_first_failure
    (transport : CircuitType → Except String SindriCircuitInfoResponse)
    (pre post : List CircuitType) (bad : CircuitType) (vs : List String) (e : String)
    (hpre : pre.map (fun k => vkResult transport k) = vs.map Except.ok)
    (hbad : vkResult transport bad = Except.error e) :
    get_vks ⟨pre ++ bad :: post, THIS_CIRCUIT_VERSION⟩ transport =
      ({ vks := dedupAppend [] vs, error := some e }, pre.length + 1) := by
  unfold get_vks
  rw [if_neg (by simp)]
  exact getVksLoop_first_failure transport pre bad post vs e [] hpre hbad

/-- C4 witness: three requested kinds where the second call fails — the
response carries exactly the one key obtained from the first kind. -/
theorem c4_witness :
    get_vks ⟨[CircuitType.Chunk, CircuitType.Batch, CircuitType.Bundle],
        THIS_CIRCUIT_VERSION⟩
      (fun ct => match ct with
        | CircuitType.Batch => Except.error "transport failure"
        | _ => Except.ok (⟨⟨"-w"⟩⟩ : SindriCircuitInfoResponse)) =
      ({ vks := ["+w=="], error := some "transport failure" }, 2) := by
  have h := c4_get_vks_stops_at_first_failure
    (fun ct => match ct with
      | CircuitType.Batch => Except.error "transport failure"
      | _ => Except.ok (⟨⟨"-w"⟩⟩ : SindriCircuitInfoResponse))
    [CircuitType.Chunk] [CircuitType.Bundle] CircuitType.Batch ["+w=="]
    "transport failure" rfl rfl
  simpa [dedupAppend] using h

/-- C2: the mapping from the backend status vocabulary to the
vendor-neutral one is total and one-to-one: the wire strings "Queued",
"In Progress", "Ready", "Failed" map (through deserialization and the
`From` conversion) to `Queued`, `Proving`, `Success`, `Failed`
respectively, and the conversion is injective and surjective, so no other
mapping is possible. -/
theorem c2_status_mapping_total_one_to_one :
    (parseSindriStatus "Queued").map statusFrom = some TaskStatus.Queued ∧
    (parseSindriStatus "In Progress").map statusFrom = some TaskStatus.Proving ∧
    (parseSindriStatus "Ready").map statusFrom = some TaskStatus.Success ∧
    (parseSindriStatus "Failed").map statusFrom = some TaskStatus.Failed ∧
    Function.Injective statusFrom ∧ Function.Surjective statusFrom := by
  refine ⟨by decide, by decide, by decide, by decide, ?_, ?_⟩
  · intro a b h
    cases a <;> cases b <;> simp_all [statusFrom]
  · intro t
    cases t
    exacts [⟨SindriTaskStatus.Queued, rfl⟩, ⟨SindriTaskStatus.Proving, rfl⟩,
      ⟨SindriTaskStatus.Success, rfl⟩, ⟨SindriTaskStatus.Failed, rfl⟩]

/-- C3: `get_vks` with a mismatched circuit version returns an empty key
list and the non-empty error "circuit version mismatch", issuing zero
backend calls. -/
theorem c3_get_vks_version_mismatch
    (transport : CircuitType → Except String SindriCircuitInfoResponse)
    (req : GetVkRequest) (h : req.circuit_version ≠ THIS_CIRCUIT_VERSION) :
    get_vks req transport =
      ({ vks := [], error := some "circuit version mismatch" }, 0) ∧
    "circuit version mismatch" ≠ "" := by
  refine ⟨?_, by decide⟩
  unfold get_vks
  simp [h]

/-- C3 witness: a mismatched version on a concrete request. -/
theorem c3_witness :
    get_vks ⟨[CircuitType.Chunk], "v0.0.0"⟩ (fun _ => Except.error "down") =
      ({ vks := [], error := some "circuit version mismatch" }, 0) ∧
    "circuit version mismatch" ≠ "" :=
  c3_get_vks_version_mismatch (fun _ => Except.error "down")
    ⟨[CircuitType.Chunk], "v0.0.0"⟩ (by decide)

/-- C5: every `prove` call that fails before or during transport (version
mismatch, input-reshape failure, or transport/decode failure) returns a
response with empty task ID, status `Failed`, `created_at` zero,
`started_at` and `finished_at` absent, and a non-empty error string; the
transport error is never propagated (the function is total and always
returns a `ProveResponse`). -/
theorem c5_prove_failure_response (ts : SindriProofInfoResponse → Timestamps)
    (req : ProveRequest) (transport : Except String SindriProofInfoResponse)
    (h : req.circuit_version ≠ THIS_CIRCUIT_VERSION ∨
         (∃ e, reprocess_prove_input req = Except.error e) ∨
         (∃ e, transport = Except.error e)) :
    (prove ts req transport).task_id = "" ∧
    (prove ts req transport).status = TaskStatus.Failed ∧
    (prove ts req transport).created_at = 0 ∧
    (prove ts req transport).started_at = none ∧
    (prove ts req transport).finished_at = none ∧
    ∃ msg, (prove ts req transport).error = some msg ∧ msg ≠ "" := by
  unfold prove
  by_cases hv : req.circuit_version = THIS_CIRCUIT_VERSION
  · simp only [hv, ne_eq, not_true_eq_false, if_false, ite_false]
    cases hrp : reprocess_prove_input req with
    | error e =>
      exact ⟨rfl, rfl, rfl, rfl, rfl, e, rfl, reprocess_error_ne_empty hrp⟩
    | ok i =>
      cases transport with
      | ok resp =>
        rcases h with h | ⟨e, he⟩ | ⟨e, he⟩
        · exact absurd hv h
        · rw [hrp] at he; exact absurd he (by simp)
        · exact absurd he (by simp)
      | error e =>
        refine ⟨rfl, rfl, rfl, rfl, rfl, "Failed to request proof: " ++ e, rfl, ?_⟩
        exact append_ne_empty_of_ne_empty _ _ (by decide)
  · simp only [hv, ne_eq, not_false_eq_true, if_true, ite_true]
    exact ⟨rfl, rfl, rfl, rfl, rfl, "circuit version mismatch", rfl, by decide⟩

/-- C5 witness: a concrete transport failure. -/
theorem c5_witness :
    (prove (fun _ => ((0 : Int), none, none))
      ⟨CircuitType.Chunk, THIS_CIRCUIT_VERSION, "fork", Json.null⟩
      (Except.error "connection reset")).task_id = "" ∧
    (prove (fun _ => ((0 : Int), none, none))
      ⟨CircuitType.Chunk, THIS_CIRCUIT_VERSION, "fork", Json.null⟩
      (Except.error "connection reset")).status = TaskStatus.Failed ∧
    (prove (fun _ => ((0 : Int), none, none))
      ⟨CircuitType.Chunk, THIS_CIRCUIT_VERSION, "fork", Json.null⟩
      (Except.error "connection reset")).created_at = 0 ∧
    (prove (fun _ => ((0 : Int), none, none))
      ⟨CircuitType.Chunk, THIS_CIRCUIT_VERSION, "fork", Json.null⟩
      (Except.error "connection reset")).started_at = none ∧
    (prove (fun _ => ((0 : Int), none, none))
      ⟨CircuitType.Chunk, THIS_CIRCUIT_VERSION, "fork", Json.null⟩
      (Except.error "connection reset")).finished_at = none ∧
    ∃ msg, (prove (fun _ => ((0 : Int), none, none))
      ⟨CircuitType.Chunk, THIS_CIRCUIT_VERSION, "fork", Json.null⟩
      (Except.error "connection reset")).error = some msg ∧ msg ≠ "" :=
  c5_prove_failure_response (fun _ => ((0 : Int), none, none))
    ⟨CircuitType.Chunk, THIS_CIRCUIT_VERSION, "fork", Json.null⟩
    (Except.error "connection reset")
    (Or.inr (Or.inr ⟨"connection reset", rfl⟩))

/-- C6: for a Bundle-kind request whose input is an envelope whose
`batch_proofs` field holds `[A, B]`, the request body submitted to the
backend carries exactly the inner array `[A, B]`; for every other circuit
kind the input is passed through unchanged. -/
theorem c6_bundle_envelope_stripped :
    (∀ (req : ProveRequest) (A B : Json),
       req.circuit_type = CircuitType.Bundle →
       req.input = Json.obj [("batch_proofs", Json.arr [A, B])] →
       sindri_prove_request req = Except.ok ⟨Json.arr [A, B], true⟩) ∧
    (∀ req : ProveRequest, req.circuit_type ≠ CircuitType.Bundle →
       sindri_prove_request req = Except.ok ⟨req.input, true⟩) := by
  constructor
  · intro req A B h1 h2
    obtain ⟨ct, cv, hf, inp⟩ := req
    simp only at h1 h2
    subst h1
    subst h2
    rfl
  · intro req h
    obtain ⟨ct, cv, hf, inp⟩ := req
    simp only at h
    cases ct <;> first | rfl | exact absurd rfl h

/-- C6 witness: a concrete Bundle envelope and a concrete Chunk input. -/
theorem c6_witness :
    sindri_prove_request
      ⟨CircuitType.Bundle, THIS_CIRCUIT_VERSION, "fork",
        Json.obj [("batch_proofs", Json.arr [Json.num 1, Json.num 2])]⟩ =
      Except.ok ⟨Json.arr [Json.num 1, Json.num 2], true⟩ ∧
    sindri_prove_request ⟨CircuitType.Chunk, THIS_CIRCUIT_VERSION, "fork", Json.str "x"⟩ =
      Except.ok ⟨Json.str "x", true⟩ :=
  ⟨c6_bundle_envelope_stripped.1 _ (Json.num 1) (Json.num 2) rfl rfl,
   c6_bundle_envelope_stripped.2 _ (by decide)⟩

/-- C7: every failed `query_task` call — in particular any HTTP status
outside the inclusive 200–202 range, such as 500, is a call failure —
returns a response with `task_id` equal to the requested task ID, status
`Queued`, zero/absent timestamps and a non-empty error; no error class
escapes (the function is total and always returns a `QueryTaskResponse`). -/
theorem c7_query_task_failure_response (ts : SindriProofInfoResponse → Timestamps)
    (req : QueryTaskRequest) :
    (∀ e, (query_task ts req (Except.error e)).task_id = req.task_id ∧
          (query_task ts req (Except.error e)).status = TaskStatus.Queued ∧
          (query_task ts req (Except.error e)).created_at = 0 ∧
          (query_task ts req (Except.error e)).started_at = none ∧
          (query_task ts req (Except.error e)).finished_at = none ∧
          ∃ msg, (query_task ts req (Except.error e)).error = some msg ∧ msg ≠ "") ∧
    (∀ (s : Nat) (d : Except String SindriProofInfoResponse),
       statusOk s = false → ∃ e, httpOutcome s d = Except.error e) ∧
    statusOk 500 = false := by
  refine ⟨?_, ?_, by decide⟩
  · intro e
    refine ⟨rfl, rfl, rfl, rfl, rfl, "Failed to query proof: " ++ e, rfl, ?_⟩
    exact append_ne_empty_of_ne_empty _ _ (by decide)
  · intro s d h
    refine ⟨"status not ok: " ++ toString s, ?_⟩
    unfold httpOutcome
    rw [h]
    simp

/-- C7 witness: a simulated 500 response on a concrete task. -/
theorem c7_witness :
    (query_task (fun _ => ((0 : Int), none, none)) ⟨"proof-42"⟩
      (Except.error "status not ok: 500")).task_id = "proof-42" ∧
    (query_task (fun _ => ((0 : Int), none, none)) ⟨"proof-42"⟩
      (Except.error "status not ok: 500")).status = TaskStatus.Queued ∧
    statusOk 500 = false ∧
    (∃ e, httpOutcome 500
      (Except.ok ⟨none, "", none, "proof-42", none, none, SindriTaskStatus.Success, none⟩) =
        Except.error e) := by
  have h := c7_query_task_failure_response (fun _ => ((0 : Int), none, none)) ⟨"proof-42"⟩
  exact ⟨(h.1 "status not ok: 500").1, (h.1 "status not ok: 500").2.1, h.2.2,
    h.2.1 500 _ h.2.2⟩

/-- C9: for every defined circuit kind, route construction produces the
path `circuit/scroll-tech/<kind>_prover:<THIS_CIRCUIT_VERSION>/<method>`,
containing the kind-specific segment and the exact configured protocol
version; for the `Undefined` kind, route construction is the
`unreachable!` panic (modelled `none`), so no route is produced. -/
theorem c9_route_construction (method : String) :
    build_url_path (MethodClass.Circuit CircuitType.Chunk) method =
      some ("circuit/scroll-tech/chunk_prover:" ++ THIS_CIRCUIT_VERSION ++ "/" ++ method) ∧
    build_url_path (MethodClass.Circuit CircuitType.Batch) method =
      some ("circuit/scroll-tech/batch_prover:" ++ THIS_CIRCUIT_VERSION ++ "/" ++ method) ∧
    build_url_path (MethodClass.Circuit CircuitType.Bundle) method =
      some ("circuit/scroll-tech/bundle_prover:" ++ THIS_CIRCUIT_VERSION ++ "/" ++ method) ∧
    THIS_CIRCUIT_VERSION = "v0.13.1" ∧
    build_url_path (MethodClass.Circuit CircuitType.Undefined) method = none :=
  ⟨rfl, rfl, rfl, rfl, rfl⟩

/-- C8: for every byte string `b`, if `s` is the URL-safe unpadded base64
encoding of `b` then `reformat_vk s` succeeds, and decoding its result as
standard padded base64 recovers exactly `b`: the re-encoding is lossless
and invertible. -/
theorem c8_reformat_vk_roundtrip (b : List Nat) (h : ∀ x ∈ b, x < 256) :
    reformat_vk (encodeB64NoPad B64_URL b).asString =
      Except.ok (encodeB64Pad B64_STD b).asString ∧
    decodeB64Pad B64_STD (encodeB64Pad B64_STD b) = some b := by
  constructor
  · unfold reformat_vk
    have ht : (encodeB64NoPad B64_URL b).asString.toList = encodeB64NoPad B64_URL b := rfl
    rw [ht, decode_encode_noPad B64_URL
      (fun n hn => sextetVal_sextetChar_url ⟨n, hn⟩) b h]
  · exact decodePad_encodePad_std b h

/-- C8 witness: the bytes `[251, 0, 77]`, whose URL-safe encoding uses a
character outside the standard alphabet. -/
theorem c8_witness :
    reformat_vk (encodeB64NoPad B64_URL [251, 0, 77]).asString =
      Except.ok (encodeB64Pad B64_STD [251, 0, 77]).asString ∧
    decodeB64Pad B64_STD (encodeB64Pad B64_STD [251, 0, 77]) = some [251, 0, 77] :=
  c8_reformat_vk_roundtrip [251, 0, 77] (by decide)

/-- C10: every successful `query_task` call returns the sentinel circuit
metadata — `circuit_type` is `Undefined`, `circuit_version` and
`hard_fork_name` are empty — and a `task_id` equal to the backend-reported
proof ID, not to the caller-supplied task ID. -/
theorem c10_query_task_success_sentinels (ts : SindriProofInfoResponse → Timestamps)
    (req : QueryTaskRequest) (resp : SindriProofInfoResponse) :
    (query_task ts req (Except.ok resp)).circuit_type = CircuitType.Undefined ∧
    (query_task ts req (Except.ok resp)).circuit_version = "" ∧
    (query_task ts req (Except.ok resp)).hard_fork_name = "" ∧
    (query_task ts req (Except.ok resp)).task_id = resp.proof_id :=
  ⟨rfl, rfl, rfl, rfl⟩
